import Mathlib

/-!
Shallow embedding of the PyLibPro repository (src/lib-collect.py and
src/setup.py) and proofs about the claims of its specification.

Modelling conventions:
* Python strings are Lean `String`s; the character-level operations the
  source uses (`str.lower`, `str.replace`, `'gb' in s`, slicing `s[2:]`)
  are embedded as structurally recursive functions on `String.data`, so
  that every definition evaluates by kernel reduction.
* Python `float` parsing is applied by the source only to the catalog's
  own size strings, whose numeric parts are plain digit strings, so float
  arithmetic on them is exact; sizes are therefore modelled as `Nat`
  megabyte counts.  A malformed numeric string raises `ValueError` in
  Python; the embedded parser returns `none` there, and fallible
  computations return `Option`/`Except`.
* The `pip install` subprocess is an oracle `Pip` mapping a library name
  to success or an exception (`CalledProcessError` or any other), and the
  observable behaviour of the program (prints, install invocations,
  records emitted through the `logging` module) is a list of events `Ev`.
-/

namespace PyLibPro

/-- Lower-case the characters of a string (Python `str.lower`). -/
def lowerData (s : String) : List Char :=
  s.data.map Char.toLower

/-- Remove every non-overlapping occurrence of `pat` from `s`, scanning
left to right: Python `s.replace(pat, '')`, the only use of `str.replace`
in the source.  The `Nat` argument is recursion fuel, instantiated with
the length of the scanned list, which bounds the number of steps. -/
def removeOcc (pat : List Char) : Nat → List Char → List Char
  | _, [] => []
  | 0, s => s
  | fuel + 1, c :: cs =>
    if pat ≠ [] ∧ pat.isPrefixOf (c :: cs) then
      removeOcc pat fuel ((c :: cs).drop pat.length)
    else
      c :: removeOcc pat fuel cs

/-- Python `s.replace(pat, '')` on the character list of a string. -/
def pyRemove (s : List Char) (pat : List Char) : List Char :=
  removeOcc pat s.length s

/-- Python `pat in s` substring test. -/
def containsSub (pat : List Char) (s : List Char) : Bool :=
  s.tails.any fun t => pat.isPrefixOf t

/-- Numeric value of a list of decimal digit characters, `none` when the
list is empty or holds a non-digit.  This embeds Python `float(...)` as
used by the source: it is only ever applied to the catalog size strings,
whose numeric parts are plain digit strings with integer values. -/
def digitsToNat (ds : List Char) : Option Nat :=
  if ds ≠ [] ∧ ds.all Char.isDigit then
    some (ds.foldl (fun a c => a * 10 + (c.toNat - 48)) 0)
  else
    none

/-- Python slicing `s[n:]`. -/
def strDrop (n : Nat) (s : String) : String :=
  ⟨s.data.drop n⟩

/-- Python `str.lower` returning a string. -/
def lowerStr (s : String) : String :=
  ⟨lowerData s⟩

/-- The `self.libraries` table of `MLLibraryManager.__init__`
(src/lib-collect.py lines 51-74): category key → (library, size) entries
in source order. -/
def catalog : List (String × List (String × String)) :=
  [("1_core_frameworks",
     [("tensorflow", "~2GB"),
      ("torch", "~4GB"),
      ("scikit-learn", "~300MB"),
      ("keras", "~100MB"),
      ("jax", "~600MB"),
      ("xgboost", "~200MB")]),
   ("2_visualization",
     [("matplotlib", "~50MB"),
      ("plotly", "~100MB"),
      ("seaborn", "~20MB"),
      ("bokeh", "~80MB"),
      ("altair", "~30MB")]),
   ("3_nlp",
     [("transformers", "~5GB"),
      ("spacy", "~1GB"),
      ("nltk", "~500MB"),
      ("gensim", "~200MB"),
      ("sentence-transformers", "~1GB")])]

/-- The category keys in display order: `list(self.libraries.keys())`. -/
def keysList : List String :=
  catalog.map (·.1)

/-- All (library, size) entries in catalog iteration order, as visited by
the nested loops of `calculate_size`. -/
def allEntries : List (String × String) :=
  catalog.flatMap (·.2)

/-- Every library name in the catalog, in iteration order: the union
`all_libs` built by the main loop's choice "1". -/
def allNames : List String :=
  allEntries.map (·.1)

/-- Entries of one category: `self.libraries[category]`, `none` standing
for the `KeyError` a missing key would raise. -/
def libsOf (category : String) : Option (List (String × String)) :=
  (catalog.find? fun c => c.1 == category).map (·.2)

/-- Megabyte value of one size string, embedding lines 207-211 of
src/lib-collect.py:
`size_str = size.lower()`; if `'gb' in size_str` then
`float(size_str.replace('~','').replace('gb','')) * 1024` else
`float(size_str.replace('~','').replace('mb',''))`.
`none` models the `ValueError` that `float` raises on a malformed
numeric string. -/
def sizeToMb (size : String) : Option Nat :=
  let s := lowerData size
  if containsSub ['g', 'b'] s then
    (digitsToNat (pyRemove (pyRemove s ['~']) ['g', 'b'])).map (· * 1024)
  else
    digitsToNat (pyRemove (pyRemove s ['~']) ['m', 'b'])

/-- One step of the `total_mb` accumulation in `calculate_size`: the
entry contributes its parsed megabyte value when its name is in the
selected set, and nothing otherwise; a parse failure propagates. -/
def entryStep (libraries : List String) (acc : Option Nat)
    (e : String × String) : Option Nat :=
  acc.bind fun t =>
    if libraries.contains e.1 then (sizeToMb e.2).map (t + ·) else some t

/-- The `total_mb` accumulator of `calculate_size` over the whole
catalog. -/
def totalMb (libraries : List String) : Option Nat :=
  allEntries.foldl (entryStep libraries) (some 0)

/-- Round-half-even of the fraction `num / den`, `den ≠ 0`.  Python's
`f"{x:.1f}"` / `f"{x:.0f}"` round the exact value of the float `x` to
the nearest decimal, ties to even; every `x` the source formats is
`total_mb / 1024` or `total_mb` with `total_mb` an integer below `2^53`,
so `x` is exact and this captures the printed digits. -/
def roundHalfEven (num den : Nat) : Nat :=
  let q := num / den
  let r := num % den
  if den < 2 * r then q + 1
  else if 2 * r < den then q
  else if q % 2 = 0 then q else q + 1

/-- The gigabyte rendering `f"~{total_mb/1024:.1f}GB"` of
`calculate_size` for an integer `total_mb`. -/
def fmtGB (t : Nat) : String :=
  let tenths := roundHalfEven (t * 10) 1024
  "~" ++ toString (tenths / 10) ++ "." ++ toString (tenths % 10) ++ "GB"

/-- `MLLibraryManager.calculate_size` (src/lib-collect.py lines 201-216).
The input is the selection set, represented as a list queried only
through membership; the result is `none` when the Python code would
raise. -/
def calculate_size (libraries : List String) : Option String :=
  (totalMb libraries).map fun total_mb =>
    if total_mb > 1024 then fmtGB total_mb
    else "~" ++ toString total_mb ++ "MB"

/-- `MLLibraryManager.calculate_category_size` (lines 197-199). -/
def calculate_category_size (category : String) : Option String :=
  (libsOf category).bind fun libs => calculate_size (libs.map (·.1))

/-! ### Spec-side model of the size calculator

These definitions follow the words of the specification (§4.2), not the
source, and exist only to be compared with `calculate_size` in the
refinement theorem for claim C5. -/

/-- Spec-side parse of one size string: strip the leading approximation
marker; when the unit is gigabytes multiply the numeric value by 1024 to
normalise to megabytes, otherwise take the megabyte value directly. -/
def specEntryMb (size : String) : Nat :=
  let stripped := match size.data with
    | '~' :: rest => rest
    | cs => cs
  match stripped.reverse with
  | 'B' :: 'G' :: rev =>
    (rev.reverse.foldl (fun a c => a * 10 + (c.toNat - 48)) 0) * 1024
  | 'B' :: 'M' :: rev =>
    rev.reverse.foldl (fun a c => a * 10 + (c.toNat - 48)) 0
  | _ => 0

/-- Spec-side rendering of a gigabyte total: one decimal place with an
approximation marker (ties of the decimal rounding resolved to even, as
the printed float digit is). -/
def specRenderGB (t : Nat) : String :=
  let tenths := roundHalfEven (t * 10) 1024
  "~" ++ toString (tenths / 10) ++ "." ++ toString (tenths % 10) ++ "GB"

/-- Spec-side size calculator (§4.2): sum the normalised megabyte values
of the catalog entries selected by the input set; render as gigabytes
with one decimal place when the sum strictly exceeds 1024, otherwise as
whole megabytes, each with an approximation marker. -/
def calculateSizeSpec (libraries : List String) : String :=
  let total :=
    (allEntries.filter fun e => libraries.contains e.1).foldl
      (fun a e => a + specEntryMb e.2) 0
  if 1024 < total then specRenderGB total
  else "~" ++ toString total ++ "MB"

/-! ### Observable events and the installer -/

/-- Exception raised by an attempted `pip install` subprocess call:
`subprocess.CalledProcessError` with message `msg`, or any other
exception. -/
inductive PipErr where
  | called (msg : String)
  | other (msg : String)
deriving DecidableEq

/-- `str(e)` for a modelled exception. -/
def PipErr.msg : PipErr → String
  | .called m => m
  | .other m => m

/-- Oracle for the external `pip install <lib>` invocation. -/
def Pip : Type := String → Except PipErr Unit

/-- Observable events of a program run: abstract renderings of the three
display routines, a printed line, an attempted `pip install` invocation,
and a record emitted through the `logging` module (level, message).  The
source configures `logging` in `setup_logging` but contains no
`logging.info`/`logging.error` call, so no embedded function ever emits
`logRec`. -/
inductive Ev where
  | menu
  | categories
  | libsList (category : String)
  | line (s : String)
  | pipInstall (lib : String)
  | logRec (level : String) (msg : String)
deriving DecidableEq

/-- Is the event an attempted package-install invocation? -/
def isPipEv : Ev → Bool
  | .pipInstall _ => true
  | _ => false

/-- Is the event a record written through the `logging` module? -/
def isLogEv : Ev → Bool
  | .logRec _ _ => true
  | _ => false

/-- The outcome print of one install attempt in
`MLLibraryManager.install_libraries`: the success line, or the line of
the `except subprocess.CalledProcessError` handler, or the line of the
generic `except Exception` handler. -/
def outcomeEvs (pip : Pip) (lib : String) : List Ev :=
  match pip lib with
  | .ok _ => [Ev.line ("Successfully installed " ++ lib)]
  | .error (.called m) =>
    [Ev.line ("Error installing " ++ lib ++ ": " ++ m)]
  | .error (.other m) =>
    [Ev.line ("Unexpected error installing " ++ lib ++ ": " ++ m)]

/-- `MLLibraryManager.install_libraries` (src/lib-collect.py lines
218-228): for each selected library, print the attempt line, invoke the
installer, and print the outcome; a `CalledProcessError` or any other
exception is caught and printed, and the loop continues. -/
def install_libraries (pip : Pip) (selected : List String) : List Ev :=
  selected.flatMap fun lib =>
    Ev.line ("\nInstalling " ++ lib ++ "...") :: Ev.pipInstall lib ::
      outcomeEvs pip lib

/-- The two auxiliary packages of src/setup.py, in source order. -/
def requirements : List String :=
  ["colorama", "logging"]

/-- The outcome of one setup attempt: src/setup.py prints nothing on
success and prints the generic `except Exception` line on failure. -/
def setupOutcome (pip : Pip) (package : String) : List Ev :=
  match pip package with
  | .ok _ => []
  | .error e =>
    [Ev.line ("Error installing " ++ package ++ ": " ++ e.msg)]

/-- `install_requirements` (src/setup.py lines 7-29): print the banner,
attempt one `pip install` per auxiliary package in order with any
exception caught and printed, then print the closing message. -/
def install_requirements (pip : Pip) : List Ev :=
  Ev.line "Setting up PyLibPro..." ::
  (requirements.flatMap fun package =>
    Ev.line ("\nInstalling " ++ package ++ "...") :: Ev.pipInstall package ::
      setupOutcome pip package) ++
  [Ev.line "\nSetup complete! Run 'python lib-collect.py' to start"]

/-! ### The interactive loop (`MLLibraryManager.run`, lines 230-291)

The loop is an interpreter over the list of lines standard input will
deliver.  Each `while True` level becomes one recursive function,
structurally recursive on an explicit fuel argument; since every loop
iteration consumes at least one input line, fuel exceeding the number of
input lines never runs out.  `input()` on exhausted input raises
`EOFError`, and an uncaught exception propagating out of `run` ends the
program (`main` catches it and prints an error). -/

/-- Exceptions the loop can raise: `int()` on a non-numeric string,
list indexing out of range, and dictionary lookup of a missing key. -/
inductive PyExc where
  | valueError
  | indexError
  | keyError
deriving DecidableEq

/-- How a whole run ends. -/
inductive RunEnd where
  | exited
  | eofError
  | exc (e : PyExc)
  | fuelOut
deriving DecidableEq

/-- How an inner `while True` loop ends: `brk rest` is a `break` back to
the enclosing loop with `rest` still unread, `halt` ends the run. -/
inductive LoopExit where
  | brk (rest : List String)
  | halt (r : RunEnd)
deriving DecidableEq

/-- Python `int(s)`: an optional sign followed by decimal digits, `none`
modelling the `ValueError` on anything else.  (Python also strips
whitespace and allows digit-group underscores; no claim depends on
those inputs.) -/
def pyInt (s : String) : Option Int :=
  match s.data with
  | '-' :: ds => (digitsToNat ds).map fun n => -(n : Int)
  | '+' :: ds => (digitsToNat ds).map fun n => (n : Int)
  | ds => (digitsToNat ds).map fun n => (n : Int)

/-- Python list indexing `l[i]` with negative indices counting from the
end; `none` models the `IndexError`. -/
def pyIndex (l : List String) (i : Int) : Option String :=
  if 0 ≤ i ∧ i < (l.length : Int) then l.get? i.toNat
  else if -(l.length : Int) ≤ i ∧ i < 0 then l.get? (i + l.length).toNat
  else none

/-- The category-selection step shared by main-menu choices "2" and "3"
(lines 264-265 and 277-278):
`category = f"{cat_choice}_" + list(self.libraries.keys())[int(cat_choice)-1][2:]`
followed by `if category in self.libraries`.  `Except` carries the
exception `int` or the indexing raises; `ok none` is a reconstructed
name that is not a category key, which the source silently ignores. -/
def selectCategory (choice : String) : Except PyExc (Option String) :=
  match pyInt choice with
  | none => .error .valueError
  | some n =>
    match pyIndex keysList (n - 1) with
    | none => .error .indexError
    | some key =>
      let category := choice ++ "_" ++ strDrop 2 key
      if keysList.contains category then .ok (some category) else .ok none

/-- The innermost `while True` of main-menu choice "3" (lines 279-291):
display the category's libraries, read a choice; "0" breaks back to the
category menu; `int()` failures are caught and print "Invalid input"; an
index with no corresponding library is silently ignored; a valid index
asks for confirmation and installs that one library on "y". -/
def libLoop (pip : Pip) : Nat → String → List String → List Ev × LoopExit
  | 0, _, _ => ([], .halt .fuelOut)
  | fuel + 1, category, inputs =>
    match libsOf category with
    | none => ([], .halt (.exc .keyError))
    | some libs =>
      match inputs with
      | [] => ([Ev.libsList category], .halt .eofError)
      | choice :: rest =>
        if choice == "0" then ([Ev.libsList category], .brk rest)
        else
          match pyInt choice with
          | none =>
            let r := libLoop pip fuel category rest
            (Ev.libsList category :: Ev.line "Invalid input" :: r.1, r.2)
          | some n =>
            let idx : Int := n - 1
            if 0 ≤ idx ∧ idx < (libs.length : Int) then
              match libs.get? idx.toNat with
              | none => ([Ev.libsList category], .halt (.exc .indexError))
              | some entry =>
                match rest with
                | [] => ([Ev.libsList category], .halt .eofError)
                | ans :: rest2 =>
                  let installEvs :=
                    if lowerStr ans == "y" then install_libraries pip [entry.1]
                    else []
                  let r := libLoop pip fuel category rest2
                  (Ev.libsList category :: installEvs ++ r.1, r.2)
            else
              let r := libLoop pip fuel category rest
              (Ev.libsList category :: r.1, r.2)

/-- The `while True` of main-menu choice "2" (lines 259-268): display the
categories, read a choice; "0" breaks back to the main menu; a valid
category asks for confirmation with its size and installs the whole
category on "y"; a reconstructed non-key name is silently ignored; an
`int()` or indexing exception propagates uncaught. -/
def catLoop2 (pip : Pip) : Nat → List String → List Ev × LoopExit
  | 0, _ => ([], .halt .fuelOut)
  | fuel + 1, inputs =>
    match inputs with
    | [] => ([Ev.categories], .halt .eofError)
    | choice :: rest =>
      if choice == "0" then ([Ev.categories], .brk rest)
      else
        match selectCategory choice with
        | .error e => ([Ev.categories], .halt (.exc e))
        | .ok none =>
          let r := catLoop2 pip fuel rest
          (Ev.categories :: r.1, r.2)
        | .ok (some category) =>
          match libsOf category with
          | none => ([Ev.categories], .halt (.exc .keyError))
          | some libs =>
            match calculate_size (libs.map (·.1)) with
            | none => ([Ev.categories], .halt (.exc .valueError))
            | some _size =>
              match rest with
              | [] => ([Ev.categories], .halt .eofError)
              | ans :: rest2 =>
                let installEvs :=
                  if lowerStr ans == "y" then
                    install_libraries pip (libs.map (·.1))
                  else []
                let r := catLoop2 pip fuel rest2
                (Ev.categories :: installEvs ++ r.1, r.2)

/-- The outer `while True` of main-menu choice "3" (lines 272-291):
display the categories, read a choice; "0" breaks back to the main menu;
a valid category enters the library loop; a reconstructed non-key name
is silently ignored; an `int()` or indexing exception propagates. -/
def catLoop3 (pip : Pip) : Nat → List String → List Ev × LoopExit
  | 0, _ => ([], .halt .fuelOut)
  | fuel + 1, inputs =>
    match inputs with
    | [] => ([Ev.categories], .halt .eofError)
    | choice :: rest =>
      if choice == "0" then ([Ev.categories], .brk rest)
      else
        match selectCategory choice with
        | .error e => ([Ev.categories], .halt (.exc e))
        | .ok none =>
          let r := catLoop3 pip fuel rest
          (Ev.categories :: r.1, r.2)
        | .ok (some category) =>
          match libLoop pip fuel category rest with
          | (evs, .brk rest2) =>
            let r := catLoop3 pip fuel rest2
            (Ev.categories :: evs ++ r.1, r.2)
          | (evs, .halt res) => (Ev.categories :: evs, .halt res)

/-- The main `while True` of `MLLibraryManager.run` (lines 240-291):
display the main menu and read a choice; "0" prints "Exiting..." and
ends; "1" asks for confirmation with the total size and installs every
library on "y"; "2" and "3" enter the category loops; any other input
silently redisplays the menu. -/
def mainLoop (pip : Pip) : Nat → List String → List Ev × RunEnd
  | 0, _ => ([], .fuelOut)
  | fuel + 1, inputs =>
    match inputs with
    | [] => ([Ev.menu], .eofError)
    | choice :: rest =>
      if choice == "0" then ([Ev.menu, Ev.line "Exiting..."], .exited)
      else if choice == "1" then
        match calculate_size allNames with
        | none => ([Ev.menu], .exc .valueError)
        | some _total =>
          match rest with
          | [] => ([Ev.menu], .eofError)
          | ans :: rest2 =>
            let installEvs :=
              if lowerStr ans == "y" then install_libraries pip allNames
              else []
            let r := mainLoop pip fuel rest2
            (Ev.menu :: installEvs ++ r.1, r.2)
      else if choice == "2" then
        match catLoop2 pip fuel rest with
        | (evs, .brk rest2) =>
          let r := mainLoop pip fuel rest2
          (Ev.menu :: evs ++ r.1, r.2)
        | (evs, .halt res) => (Ev.menu :: evs, res)
      else if choice == "3" then
        match catLoop3 pip fuel rest with
        | (evs, .brk rest2) =>
          let r := mainLoop pip fuel rest2
          (Ev.menu :: evs ++ r.1, r.2)
        | (evs, .halt res) => (Ev.menu :: evs, res)
      else
        let r := mainLoop pip fuel rest
        (Ev.menu :: r.1, r.2)

/-- `MLLibraryManager.run` on a given script of input lines. -/
def run (pip : Pip) (fuel : Nat) (inputs : List String) :
    List Ev × RunEnd :=
  mainLoop pip fuel inputs

/-- A pip oracle on which every invocation succeeds. -/
def pipOk : Pip := fun _ => .ok ()

/-! ### Lemmas about the size calculator -/

/-- On every size string of the catalog, the source's parse
(`lower`/`replace`/`float`) succeeds and agrees with the spec-side
parse. -/
theorem parse_agreement :
    ∀ e ∈ allEntries, sizeToMb e.2 = some (specEntryMb e.2) := by
  decide

/-- The `total_mb` accumulation over entries whose parses all succeed
computes the sum of the selected entries' spec-side values. -/
theorem foldl_entryStep (L : List String) :
    ∀ (es : List (String × String)) (t : Nat),
      (∀ e ∈ es, sizeToMb e.2 = some (specEntryMb e.2)) →
      es.foldl (entryStep L) (some t) =
        some (es.foldl
          (fun a e => a + (if L.contains e.1 then specEntryMb e.2 else 0)) t)
  | [], _, _ => rfl
  | e :: es, t, h => by
    have he : sizeToMb e.2 = some (specEntryMb e.2) :=
      h e (List.mem_cons_self e es)
    have hes : ∀ x ∈ es, sizeToMb x.2 = some (specEntryMb x.2) :=
      fun x hx => h x (List.mem_cons_of_mem e hx)
    have hstep : entryStep L (some t) e =
        some (t + if L.contains e.1 then specEntryMb e.2 else 0) := by
      show (if L.contains e.1 then (sizeToMb e.2).map (t + ·) else some t) =
        some (t + if L.contains e.1 then specEntryMb e.2 else 0)
      cases hc : L.contains e.1
      · simp
      · simp [he]
    rw [List.foldl_cons, List.foldl_cons, hstep,
        foldl_entryStep L es _ hes]

/-- Closed form of `totalMb`: it never fails, and its value is the sum of
the selected entries' spec-side megabyte values in catalog order. -/
theorem totalMb_eq (L : List String) :
    totalMb L =
      some (allEntries.foldl
        (fun a e => a + (if L.contains e.1 then specEntryMb e.2 else 0)) 0) :=
  foldl_entryStep L allEntries 0 parse_agreement

/-- Folding guarded summands equals folding over the filtered list. -/
theorem fold_ite_filter (p : String × String → Bool) :
    ∀ (es : List (String × String)) (t : Nat),
      es.foldl (fun a e => a + (if p e then specEntryMb e.2 else 0)) t =
        (es.filter p).foldl (fun a e => a + specEntryMb e.2) t
  | [], _ => rfl
  | e :: es, t => by
    by_cases hc : p e = true
    · simp only [List.foldl_cons, List.filter_cons, hc, if_pos]
      exact fold_ite_filter p es _
    · simp only [List.foldl_cons, List.filter_cons, hc, if_neg,
        Bool.false_eq_true, add_zero]
      exact fold_ite_filter p es _

/-- Two guard predicates that agree on a list give the same guarded
fold. -/
theorem foldl_ite_congr (c d : String × String → Bool) :
    ∀ (es : List (String × String)) (t : Nat),
      (∀ e ∈ es, c e = d e) →
      es.foldl (fun a e => a + (if c e then specEntryMb e.2 else 0)) t =
        es.foldl (fun a e => a + (if d e then specEntryMb e.2 else 0)) t
  | [], _, _ => rfl
  | e :: es, t, h => by
    have he : c e = d e := h e (List.mem_cons_self e es)
    have hes : ∀ x ∈ es, c x = d x :=
      fun x hx => h x (List.mem_cons_of_mem e hx)
    rw [List.foldl_cons, List.foldl_cons, he, foldl_ite_congr c d es _ hes]

/-- Filtering with a predicate true at `a` does not change whether the
list contains `a`. -/
theorem contains_filter_of_pred (p : String → Bool) (L : List String)
    (a : String) (h : p a = true) :
    (L.filter p).contains a = L.contains a := by
  have h1 : (L.filter p).contains a = true ↔ a ∈ L := by
    rw [List.elem_iff, List.mem_filter]
    exact ⟨fun hm => hm.1, fun hm => ⟨hm, h⟩⟩
  have h2 : L.contains a = true ↔ a ∈ L := List.elem_iff
  by_cases hm : a ∈ L
  · rw [h1.mpr hm, h2.mpr hm]
  · rcases hb : (L.filter p).contains a with _ | _
    · rcases hb2 : L.contains a with _ | _
      · rfl
      · exact absurd (h2.mp hb2) hm
    · exact absurd (h1.mp hb) hm

/-- `calculate_size` refines the spec-side calculator: on every selection
set it succeeds and returns exactly the spec's rendering. -/
theorem calculate_size_eq_spec (L : List String) :
    calculate_size L = some (calculateSizeSpec L) := by
  unfold calculate_size calculateSizeSpec
  rw [totalMb_eq L, Option.map_some',
      fold_ite_filter (fun e => L.contains e.1) allEntries 0]
  rfl

/-! ### Lemmas about the installer -/

/-- Unfolding one step of the installer's `for` loop. -/
theorem install_cons (pip : Pip) (lib : String) (S : List String) :
    install_libraries pip (lib :: S) =
      Ev.line ("\nInstalling " ++ lib ++ "...") :: Ev.pipInstall lib ::
        (outcomeEvs pip lib ++ install_libraries pip S) :=
  rfl

/-- The outcome print of an attempt is never itself an install
invocation. -/
theorem outcomeEvs_no_pip (pip : Pip) (lib : String) :
    (outcomeEvs pip lib).filter isPipEv = [] := by
  rcases h : pip lib with e | u
  · rcases e with m | m <;> simp [outcomeEvs, h, isPipEv]
  · simp [outcomeEvs, h, isPipEv]

/-- The install invocations of a batch are exactly one per selected
name, in order, whatever the oracle answers: a failing invocation does
not prevent the remaining attempts. -/
theorem install_filter_pip (pip : Pip) :
    ∀ S : List String,
      (install_libraries pip S).filter isPipEv = S.map Ev.pipInstall
  | [] => rfl
  | lib :: S => by
    rw [install_cons, List.filter_cons, List.filter_cons, List.filter_append,
        outcomeEvs_no_pip, install_filter_pip pip S]
    rfl

/-- A `CalledProcessError` on a selected library is caught and its
handler's line printed. -/
theorem install_error_mem (pip : Pip) :
    ∀ (S : List String) (lib : String), lib ∈ S → ∀ m : String,
      pip lib = .error (.called m) →
      Ev.line ("Error installing " ++ lib ++ ": " ++ m) ∈
        install_libraries pip S
  | [], lib, hmem, _, _ => absurd hmem (List.not_mem_nil lib)
  | x :: S, lib, hmem, m, hp => by
    rw [install_cons]
    rcases List.mem_cons.mp hmem with h | h
    · subst h
      refine List.mem_cons_of_mem _ (List.mem_cons_of_mem _
        (List.mem_append_left _ ?_))
      simp [outcomeEvs, hp]
    · exact List.mem_cons_of_mem _ (List.mem_cons_of_mem _
        (List.mem_append_right _ (install_error_mem pip S lib h m hp)))

/-- Any other exception on a selected library is caught by the generic
handler and its line printed. -/
theorem install_other_mem (pip : Pip) :
    ∀ (S : List String) (lib : String), lib ∈ S → ∀ m : String,
      pip lib = .error (.other m) →
      Ev.line ("Unexpected error installing " ++ lib ++ ": " ++ m) ∈
        install_libraries pip S
  | [], lib, hmem, _, _ => absurd hmem (List.not_mem_nil lib)
  | x :: S, lib, hmem, m, hp => by
    rw [install_cons]
    rcases List.mem_cons.mp hmem with h | h
    · subst h
      refine List.mem_cons_of_mem _ (List.mem_cons_of_mem _
        (List.mem_append_left _ ?_))
      simp [outcomeEvs, hp]
    · exact List.mem_cons_of_mem _ (List.mem_cons_of_mem _
        (List.mem_append_right _ (install_other_mem pip S lib h m hp)))

/-- The installer writes nothing through the `logging` module: no event
of a batch is a log record, whatever the oracle answers. -/
theorem install_no_log (pip : Pip) :
    ∀ S : List String, (install_libraries pip S).filter isLogEv = []
  | [] => rfl
  | lib :: S => by
    rw [install_cons, List.filter_cons, List.filter_cons, List.filter_append,
        install_no_log pip S]
    rcases h : pip lib with e | u
    · rcases e with m | m <;> simp [outcomeEvs, h, isLogEv]
    · simp [outcomeEvs, h, isLogEv]

/-- The setup script's outcome print is never an install invocation. -/
theorem setupOutcome_no_pip (pip : Pip) (package : String) :
    (setupOutcome pip package).filter isPipEv = [] := by
  rcases h : pip package with _ | e <;> simp [setupOutcome, h, isPipEv]

/-- A pip oracle forced to fail exactly on `torch` with a
`CalledProcessError`. -/
def pipFailB : Pip := fun lib =>
  if lib == "torch" then .error (.called "exit status 1") else .ok ()

/-- A pip oracle on which every invocation raises a generic
exception. -/
def pipBoom : Pip := fun _ => .error (.other "boom")

/-! ### The claims -/

/-- C1 (counterexample): the claim says an out-of-range or non-numeric
category number at the category-selection menus of main-menu choices
"2" and "3" is rejected and the loop re-prompts in the same menu state
without crashing or leaving the menu.  At the concrete runs below the
non-numeric input "abc" raises `ValueError` from `int(cat_choice)` and
the out-of-range number "4" raises `IndexError` from
`list(self.libraries.keys())[3]`; both are uncaught inside `run`, so the
run halts with the exception and the remaining input lines — which a
re-prompting loop would have read — are never consumed. -/
theorem c1_category_menu_crash_cex :
    run pipOk 9 ["2", "abc", "2", "0", "0"] =
      ([Ev.menu, Ev.categories], RunEnd.exc PyExc.valueError) ∧
    run pipOk 9 ["2", "4", "2", "0", "0"] =
      ([Ev.menu, Ev.categories], RunEnd.exc PyExc.indexError) ∧
    run pipOk 9 ["3", "abc", "1", "0", "0", "0"] =
      ([Ev.menu, Ev.categories], RunEnd.exc PyExc.valueError) := by
  decide

/-- C1 (amended): in the category-selection menus of main-menu choices
"2" and "3", a non-numeric category choice raises `ValueError` and an
out-of-range number such as "4" raises `IndexError`; the exception
escapes the menu loop uncaught and terminates the interactive loop
(only the program's top-level handler catches it), whatever input
follows.  Only a numeric choice within Python's index range whose
reconstructed key is not a category (such as "-1") is silently ignored
with a re-prompt in the same menu state. -/
theorem c1_category_menu_behavior (pip : Pip) (fuel : Nat)
    (rest : List String) :
    catLoop2 pip (fuel + 1) ("abc" :: rest) =
      ([Ev.categories], LoopExit.halt (RunEnd.exc PyExc.valueError)) ∧
    catLoop2 pip (fuel + 1) ("4" :: rest) =
      ([Ev.categories], LoopExit.halt (RunEnd.exc PyExc.indexError)) ∧
    catLoop3 pip (fuel + 1) ("abc" :: rest) =
      ([Ev.categories], LoopExit.halt (RunEnd.exc PyExc.valueError)) ∧
    catLoop3 pip (fuel + 1) ("4" :: rest) =
      ([Ev.categories], LoopExit.halt (RunEnd.exc PyExc.indexError)) ∧
    catLoop2 pip (fuel + 1) ("-1" :: rest) =
      (Ev.categories :: (catLoop2 pip fuel rest).1,
       (catLoop2 pip fuel rest).2) ∧
    run pip (fuel + 2) ("2" :: "abc" :: rest) =
      ([Ev.menu, Ev.categories], RunEnd.exc PyExc.valueError) :=
  ⟨rfl, rfl, rfl, rfl, rfl, rfl⟩

/-- C2 (counterexample): the claim says each failing invocation is,
among other things, logged as an error with the underlying diagnostic
message.  For the concrete set of 3 names with a failure forced on
`torch`, the complete event trace of the batch is computed below: the
failure is caught and printed and all 3 invocations are attempted, but
the trace holds no record written through the `logging` module, so the
failure is not logged. -/
theorem c2_installer_no_log_cex :
    install_libraries pipFailB ["tensorflow", "torch", "keras"] =
      [Ev.line "\nInstalling tensorflow...", Ev.pipInstall "tensorflow",
       Ev.line "Successfully installed tensorflow",
       Ev.line "\nInstalling torch...", Ev.pipInstall "torch",
       Ev.line "Error installing torch: exit status 1",
       Ev.line "\nInstalling keras...", Ev.pipInstall "keras",
       Ev.line "Successfully installed keras"] ∧
    (install_libraries pipFailB
      ["tensorflow", "torch", "keras"]).filter isLogEv = [] := by
  decide

/-- C2 (amended): for every set of library names given to the installer,
exactly one package-install invocation is attempted per name, in order;
each failing invocation is caught and its handler's line with the
underlying diagnostic message is printed; and a failure does not prevent
the attempts for the remaining names (the attempted invocations are the
same whatever the oracle answers). -/
theorem c2_installer_batch (pip : Pip) (S : List String) :
    (install_libraries pip S).filter isPipEv = S.map Ev.pipInstall ∧
    (∀ lib ∈ S, ∀ m : String, pip lib = .error (.called m) →
      Ev.line ("Error installing " ++ lib ++ ": " ++ m) ∈
        install_libraries pip S) ∧
    (∀ lib ∈ S, ∀ m : String, pip lib = .error (.other m) →
      Ev.line ("Unexpected error installing " ++ lib ++ ": " ++ m) ∈
        install_libraries pip S) :=
  ⟨install_filter_pip pip S,
   fun lib h m hp => install_error_mem pip S lib h m hp,
   fun lib h m hp => install_other_mem pip S lib h m hp⟩

/-- C2 (witness): a set of 3 names with a `CalledProcessError` forced on
the second still yields exactly 3 attempted invocations, and the
failure's handler line is printed. -/
theorem c2_installer_batch_witness :
    (install_libraries pipFailB ["tensorflow", "torch", "keras"]).filter
        isPipEv =
      ["tensorflow", "torch", "keras"].map Ev.pipInstall ∧
    Ev.line ("Error installing " ++ "torch" ++ ": " ++ "exit status 1") ∈
      install_libraries pipFailB ["tensorflow", "torch", "keras"] :=
  ⟨(c2_installer_batch pipFailB ["tensorflow", "torch", "keras"]).1,
   (c2_installer_batch pipFailB ["tensorflow", "torch", "keras"]).2.1
     "torch" (by decide) "exit status 1" rfl⟩

/-- C3 (code_bug): the claim — matching the `setup_logging` docstring's
"Records all installations" — says the session log receives a line for
each installation attempt and each outcome.  The code configures the
`logging` module but never calls it: an install batch only prints to
stdout.  Below, the complete event trace of installing
`{"scikit-learn"}` is computed — an attempt line, the invocation, an
outcome line — and contains no `logging` record; the same holds for a
failing attempt, and for every batch under every oracle. -/
theorem c3_install_writes_no_log_records :
    install_libraries pipOk ["scikit-learn"] =
      [Ev.line "\nInstalling scikit-learn...",
       Ev.pipInstall "scikit-learn",
       Ev.line "Successfully installed scikit-learn"] ∧
    (install_libraries pipOk ["scikit-learn"]).filter isLogEv = [] ∧
    (install_libraries pipBoom ["scikit-learn"]).filter isLogEv = [] := by
  decide

/-- C4 (counterexample): the claim says every invalid numeric input in
the `LibraryMenu` state — a non-numeric text as well as a number with no
corresponding library — is caught and reported to the user.  In the
concrete run below the user enters "9" in the 6-entry core-frameworks
library menu: the loop does remain in the menu and installs nothing, but
no "Invalid input" report (nor any other print) is issued — the
out-of-range number is silently ignored, so "every invalid numeric
input ... is reported" fails. -/
theorem c4_libmenu_silent_cex :
    run pipOk 9 ["3", "1", "9", "0", "0", "0"] =
      ([Ev.menu, Ev.categories, Ev.libsList "1_core_frameworks",
        Ev.libsList "1_core_frameworks", Ev.categories, Ev.menu,
        Ev.line "Exiting..."], RunEnd.exited) ∧
    Ev.line "Invalid input" ∉
      (run pipOk 9 ["3", "1", "9", "0", "0", "0"]).1 := by
  decide

/-- C4 (amended): in the `LibraryMenu` state, non-numeric input raises
`ValueError`, which is caught and reported with "Invalid input", while a
number with no corresponding library (other than the "0" back choice) is
silently ignored without a report; in both cases the loop remains in the
`LibraryMenu` state for the same category and the installer is not
invoked (the continuation is the same library menu on the remaining
input, and the step adds no install event). -/
theorem c4_libmenu_behavior (pip : Pip) (fuel : Nat)
    (rest : List String) :
    libLoop pip (fuel + 1) "1_core_frameworks" ("abc" :: rest) =
      (Ev.libsList "1_core_frameworks" :: Ev.line "Invalid input" ::
        (libLoop pip fuel "1_core_frameworks" rest).1,
       (libLoop pip fuel "1_core_frameworks" rest).2) ∧
    libLoop pip (fuel + 1) "1_core_frameworks" ("9" :: rest) =
      (Ev.libsList "1_core_frameworks" ::
        (libLoop pip fuel "1_core_frameworks" rest).1,
       (libLoop pip fuel "1_core_frameworks" rest).2) :=
  ⟨rfl, rfl⟩

/-- C5: `calculate_size` refines the specification's algorithm: on every
selection set it strips the approximation marker of each matched
entry's size string, normalises gigabytes by 1024 and takes megabytes
directly, sums the matched values, and renders the sum as gigabytes
with one decimal place and a "~" marker exactly when the sum strictly
exceeds 1024 (a sum of exactly 1024 is rendered in megabytes), and as
whole megabytes with a "~" marker otherwise — it returns precisely the
spec-side calculator's string. -/
theorem c5_calculate_size_spec_refinement (L : List String) :
    calculate_size L = some (calculateSizeSpec L) :=
  calculate_size_eq_spec L

/-- C6: with the catalog holding `tensorflow ↦ "~2GB"` and
`scikit-learn ↦ "~300MB"`, the size of the two-element selection is
2048 + 300 = 2348 MB, rendered as the string "~2.3GB". -/
theorem c6_calculate_size_example :
    allEntries.contains ("tensorflow", "~2GB") = true ∧
    allEntries.contains ("scikit-learn", "~300MB") = true ∧
    calculate_size ["tensorflow", "scikit-learn"] = some "~2.3GB" := by
  decide

/-- C7: a name unknown to the catalog contributes nothing:
`calculate_size` gives the same result on a selection set and on its
restriction to the catalog's library names. -/
theorem c7_unknown_names_ignored (L : List String) :
    calculate_size L =
      calculate_size (L.filter fun x => allNames.contains x) := by
  have hcong : ∀ e ∈ allEntries,
      L.contains e.1 =
        (L.filter fun x => allNames.contains x).contains e.1 := by
    intro e he
    have hn : allNames.contains e.1 = true :=
      List.elem_iff.mpr (List.mem_map_of_mem (·.1) he)
    exact (contains_filter_of_pred _ L e.1 hn).symm
  unfold calculate_size
  rw [totalMb_eq L, totalMb_eq (L.filter fun x => allNames.contains x),
      foldl_ite_congr (fun e => L.contains e.1)
        (fun e => (L.filter fun x => allNames.contains x).contains e.1)
        allEntries 0 hcong]

/-- C8: entering "0" at the main menu ends the run in the `Exit` state
after printing "Exiting...", whatever input follows and whatever the
oracle is, and no package-install invocation occurs on that path. -/
theorem c8_exit_no_install (pip : Pip) (fuel : Nat) (rest : List String) :
    run pip (fuel + 1) ("0" :: rest) =
      ([Ev.menu, Ev.line "Exiting..."], RunEnd.exited) ∧
    ((run pip (fuel + 1) ("0" :: rest)).1.filter isPipEv) = [] :=
  ⟨rfl, rfl⟩

/-- C9: the setup script attempts exactly two package-install
invocations, for `colorama` and then `logging` in that order, whatever
each invocation returns — so a failure on the first does not prevent the
attempt for the second — and any exception of an attempt is caught and
its handler's line printed. -/
theorem c9_setup_two_invocations (pip : Pip) :
    (install_requirements pip).filter isPipEv =
      [Ev.pipInstall "colorama", Ev.pipInstall "logging"] ∧
    (∀ e : PipErr, pip "colorama" = .error e →
      Ev.line ("Error installing colorama: " ++ e.msg) ∈
        install_requirements pip) ∧
    (∀ e : PipErr, pip "logging" = .error e →
      Ev.line ("Error installing logging: " ++ e.msg) ∈
        install_requirements pip) := by
  refine ⟨?_, ?_, ?_⟩
  · simp [install_requirements, requirements, List.filter_append,
      List.filter_cons, isPipEv, setupOutcome_no_pip]
  · intro e he
    simp [install_requirements, requirements, setupOutcome, he]
  · intro e he
    simp [install_requirements, requirements, setupOutcome, he]

/-- C9 (witness): with every invocation forced to fail, both attempts
still occur, in order, and both handler lines are printed. -/
theorem c9_setup_two_invocations_witness :
    (install_requirements pipBoom).filter isPipEv =
      [Ev.pipInstall "colorama", Ev.pipInstall "logging"] ∧
    Ev.line ("Error installing colorama: " ++ (PipErr.other "boom").msg) ∈
      install_requirements pipBoom ∧
    Ev.line ("Error installing logging: " ++ (PipErr.other "boom").msg) ∈
      install_requirements pipBoom :=
  ⟨(c9_setup_two_invocations pipBoom).1,
   (c9_setup_two_invocations pipBoom).2.1 (PipErr.other "boom") rfl,
   (c9_setup_two_invocations pipBoom).2.2 (PipErr.other "boom") rfl⟩

/-- C10: `calculate_size` is total on its public interface: every
selection set, including one holding names absent from the catalog,
yields a result string — the numeric parse is applied only to the
catalog's own well-formed size strings, so it never fails. -/
theorem c10_calculate_size_total (L : List String) :
    ∃ result, calculate_size L = some result :=
  ⟨calculateSizeSpec L, calculate_size_eq_spec L⟩

end PyLibPro
